import Mathlib

/-!
Formal model of the KYC MCP server (server.js): the Dataverse token cache,
the Document Intelligence poll loop, the combined legal-entity KYC
assessment, the tool handlers, API-key validation and the MCP session
routing. Each definition is a shallow embedding of the corresponding
JavaScript; outcomes of external HTTP calls are passed in as explicit
parameters, and machine time is an explicit argument.
-/

namespace KycMcp

/-- Truthiness of an optional string under JavaScript rules: an absent
(undefined) value and the empty string are falsy. -/
def jsTruthyOpt : Option String → Bool
  | none => false
  | some s => !(s == "")

/-- State of the Dataverse token cache: the module-level variables
dataverseToken and tokenExpiry of server.js (expiry in milliseconds). -/
structure TokenState where
  dataverseToken : Option String
  tokenExpiry : Int
deriving Repr, DecidableEq

/-- Outcome of one OAuth token-exchange HTTP call, the fetch against the
Microsoft identity endpoint inside getDataverseToken: either a JSON body
with access_token and expires_in (seconds), or a non-ok response whose
body text is read for the raised error. -/
inductive ExchangeOutcome where
  | ok (accessToken : String) (expiresIn : Int)
  | httpFail (body : String)
deriving Repr, DecidableEq

/-- The cached-token test of getDataverseToken:
dataverseToken truthy and Date.now() < tokenExpiry - 300000. -/
def cacheValid (st : TokenState) (now : Int) : Bool :=
  match st.dataverseToken with
  | none => false
  | some t => !(t == "") && decide (now < st.tokenExpiry - 300000)

/-- What one token exchange hands its caller: the access token on a 2xx
response, otherwise the error getDataverseToken throws. -/
def exchangeResult : ExchangeOutcome → Except String String
  | ExchangeOutcome.ok accessToken _ => Except.ok accessToken
  | ExchangeOutcome.httpFail body =>
      Except.error ("Failed to get Dataverse token: " ++ body)

/-- The cache write of getDataverseToken: a successful exchange stores the
token with expiry now + expires_in * 1000; a failed exchange throws before
the assignments, leaving the cache untouched. -/
def applyExchange (st : TokenState) (now : Int) : ExchangeOutcome → TokenState
  | ExchangeOutcome.ok accessToken expiresIn =>
      { dataverseToken := some accessToken, tokenExpiry := now + expiresIn * 1000 }
  | ExchangeOutcome.httpFail _ => st

/-- One call of getDataverseToken with the exchange outcome supplied as a
parameter. Returns the value returned or thrown, the new cache state, and
the number of token-exchange HTTP calls performed. -/
def getDataverseToken (st : TokenState) (now : Int) (ex : ExchangeOutcome) :
    Except String String × TokenState × Nat :=
  if cacheValid st now then
    (Except.ok (st.dataverseToken.getD ""), st, 0)
  else
    (exchangeResult ex, applyExchange st now ex, 1)

/-- n getDataverseToken calls issued concurrently, under the JavaScript
event-loop semantics of server.js: each call runs its synchronous prologue
(the cached-token test) before any of the exchange fetches resolves, so
with an invalid cache every caller starts its own exchange; ex i is the
outcome of the i-th exchange started, and completions are applied to the
cache in order. Returns every callers result, the final cache state, and
the number of token-exchange HTTP calls performed. -/
def runConcurrentGetToken (st : TokenState) (now : Int) (n : Nat)
    (ex : Nat → ExchangeOutcome) :
    List (Except String String) × TokenState × Nat :=
  if cacheValid st now then
    (List.replicate n (Except.ok (st.dataverseToken.getD "")), st, 0)
  else
    ((List.range n).map (fun i => exchangeResult (ex i)),
     (List.range n).foldl (fun acc i => applyExchange acc now (ex i)) st,
     n)

/-- Body of one poll response from the Document Intelligence operation
endpoint, as read by extractTextFromDocument: the status string, the
stringified error detail, and the analyzeResult fields the claims need. -/
structure PollBody where
  status : String
  errorDetail : String
  content : String
  pageCount : Nat
deriving Repr, DecidableEq

/-- Outcome of one poll fetch: a non-ok HTTP response (whose body text is
thrown as a polling error) or a JSON body. -/
inductive PollOutcome where
  | httpFail (body : String)
  | ok (body : PollBody)
deriving Repr, DecidableEq

/-- True when a poll response keeps the loop of extractTextFromDocument
waiting: an ok response whose status is neither succeeded nor failed. -/
def pollKeepsWaiting : PollOutcome → Bool
  | PollOutcome.httpFail _ => false
  | PollOutcome.ok b => b.status != "succeeded" && b.status != "failed"

/-- The poll loop of extractTextFromDocument. fuel counts the remaining of
the 30 iterations, i numbers the next poll; each iteration sleeps 1000 ms
and then polls once. Returns the extracted body or the thrown error,
together with the total number of polls performed. The post-loop status
check of the source collapses into the fuel-zero case: a normal loop exit
leaves a last result whose status is neither succeeded (which breaks) nor
failed (which throws), so the source then throws the timeout error. -/
def pollLoopGo (poll : Nat → PollOutcome) : Nat → Nat → Except String PollBody × Nat
  | 0, i => (Except.error "Analysis timed out", i)
  | fuel + 1, i =>
    match poll i with
    | PollOutcome.httpFail body => (Except.error ("Polling error: " ++ body), i + 1)
    | PollOutcome.ok b =>
      if b.status = "succeeded" then (Except.ok b, i + 1)
      else if b.status = "failed" then
        (Except.error ("Analysis failed: " ++ b.errorDetail), i + 1)
      else pollLoopGo poll fuel (i + 1)

/-- The full polling phase of extractTextFromDocument: at most 30 attempts,
one second apart, starting at poll 0. -/
def documentPollLoop (poll : Nat → PollOutcome) : Except String PollBody × Nat :=
  pollLoopGo poll 30 0

lemma pollLoopGo_count_le (poll : Nat → PollOutcome) :
    ∀ (fuel i : Nat), (pollLoopGo poll fuel i).2 ≤ i + fuel := by
  intro fuel
  induction fuel with
  | zero => intro i; simp [pollLoopGo]
  | succ f ih =>
    intro i
    simp only [pollLoopGo]
    cases poll i with
    | httpFail body => simp
    | ok b =>
      by_cases hs : b.status = "succeeded"
      · simp [hs]
      · by_cases hf : b.status = "failed"
        · simp [hs, hf]
        · simp only [hs, hf, if_false]
          have := ih (i + 1)
          omega

lemma pollLoopGo_skip (poll : Nat → PollOutcome) :
    ∀ (k fuel i : Nat), k ≤ fuel →
    (∀ j, j < k → pollKeepsWaiting (poll (i + j)) = true) →
    pollLoopGo poll fuel i = pollLoopGo poll (fuel - k) (i + k) := by
  intro k
  induction k with
  | zero => intro fuel i _ _; simp
  | succ k ih =>
    intro fuel i hk hrun
    cases fuel with
    | zero => omega
    | succ f =>
      have h0 : pollKeepsWaiting (poll i) = true := by
        have := hrun 0 (Nat.succ_pos k)
        simpa using this
      cases hp : poll i with
      | httpFail body => rw [hp] at h0; simp [pollKeepsWaiting] at h0
      | ok b =>
        rw [hp] at h0
        simp only [pollKeepsWaiting, Bool.and_eq_true, bne_iff_ne, ne_eq] at h0
        have step : pollLoopGo poll (f + 1) i = pollLoopGo poll f (i + 1) := by
          simp [pollLoopGo, hp, h0.1, h0.2]
        have hrest : ∀ j, j < k → pollKeepsWaiting (poll ((i + 1) + j)) = true := by
          intro j hj
          have := hrun (j + 1) (by omega)
          have hij : i + (j + 1) = (i + 1) + j := by omega
          rwa [hij] at this
        have e1 : f + 1 - (k + 1) = f - k := by omega
        have e2 : i + (k + 1) = (i + 1) + k := by omega
        rw [step, e1, e2]
        exact ih f (i + 1) (by omega) hrest

/-- Claim C2: the extractTextFromDocument poller polls at a fixed one-second
interval for at most 30 attempts; a poll reporting succeeded returns the
result immediately with no further polling; a poll reporting failed raises
the analysis error immediately without consuming the remaining attempts;
30 attempts that all keep it waiting raise the timeout error. -/
theorem c2_poller_transitions :
    ∀ (poll : Nat → PollOutcome) (k : Nat) (b : PollBody),
    ((∀ j, j < 30 → pollKeepsWaiting (poll j) = true) →
       documentPollLoop poll = (Except.error "Analysis timed out", 30))
    ∧ (k < 30 → (∀ j, j < k → pollKeepsWaiting (poll j) = true) →
       poll k = PollOutcome.ok b → b.status = "succeeded" →
       documentPollLoop poll = (Except.ok b, k + 1))
    ∧ (k < 30 → (∀ j, j < k → pollKeepsWaiting (poll j) = true) →
       poll k = PollOutcome.ok b → b.status = "failed" →
       documentPollLoop poll = (Except.error ("Analysis failed: " ++ b.errorDetail), k + 1))
    ∧ (documentPollLoop poll).2 ≤ 30 := by
  intro poll k b
  refine ⟨?_, ?_, ?_, ?_⟩
  · intro hall
    have := pollLoopGo_skip poll 30 30 0 le_rfl (by
      intro j hj; simpa using hall j hj)
    simpa [documentPollLoop, pollLoopGo] using this
  · intro hk hrun hp hs
    have hskip := pollLoopGo_skip poll k 30 0 (by omega) (by
      intro j hj; simpa using hrun j hj)
    have e1 : 30 - k = (29 - k) + 1 := by omega
    rw [documentPollLoop, hskip, e1]
    simp [pollLoopGo, Nat.zero_add, hp, hs]
  · intro hk hrun hp hf
    have hskip := pollLoopGo_skip poll k 30 0 (by omega) (by
      intro j hj; simpa using hrun j hj)
    have e1 : 30 - k = (29 - k) + 1 := by omega
    rw [documentPollLoop, hskip, e1]
    have hs : b.status ≠ "succeeded" := by rw [hf]; decide
    simp [pollLoopGo, Nat.zero_add, hp, hs, hf]
  · have := pollLoopGo_count_le poll 30 0
    simpa [documentPollLoop] using this

/-- Claim C8: a getToken call made while the cache holds a token whose
expiry is more than five minutes (300000 ms) ahead returns the cached token
unchanged, performs zero token-exchange calls, and leaves the cache state
unmodified. -/
theorem c8_cached_token_fast_path :
    ∀ (st : TokenState) (now : Int) (t : String) (ex : ExchangeOutcome),
    st.dataverseToken = some t → t ≠ "" → now < st.tokenExpiry - 300000 →
    getDataverseToken st now ex = (Except.ok t, st, 0) := by
  intro st now t ex hTok hNe hLt
  have hv : cacheValid st now = true := by
    simp [cacheValid, hTok, hNe, hLt]
  simp [getDataverseToken, hv, hTok]

/-- Witness for claim C8 at a concrete cache state and clock. -/
theorem c8_witness :
    getDataverseToken { dataverseToken := some "tok", tokenExpiry := 1000000 } 0
      (ExchangeOutcome.httpFail "down")
      = (Except.ok "tok", { dataverseToken := some "tok", tokenExpiry := 1000000 }, 0) :=
  c8_cached_token_fast_path _ _ _ _ rfl (by decide) (by decide)

/-- Claim C1, counterexample: with an empty cache, two concurrent getToken
callers both pass the cached-token test before either exchange resolves, so
two token-exchange calls are performed (not one) and the callers receive
the tokens of their own exchanges, here two different values. -/
theorem c1_counterexample :
    (runConcurrentGetToken { dataverseToken := none, tokenExpiry := 0 } 0 2
        (fun i => ExchangeOutcome.ok (if i == 0 then "tokenA" else "tokenB") 3600)).2.2 = 2
    ∧ (runConcurrentGetToken { dataverseToken := none, tokenExpiry := 0 } 0 2
        (fun i => ExchangeOutcome.ok (if i == 0 then "tokenA" else "tokenB") 3600)).1
      = [Except.ok "tokenA", Except.ok "tokenB"] := by
  exact ⟨rfl, rfl⟩

/-- Claim C1 as amended: getDataverseToken performs no single-flight
coalescing, so each of the n concurrent callers issued while no valid token
is cached performs its own token-exchange call (n calls in total), and
caller i receives exactly what a lone getDataverseToken call with its
exchange outcome would have received. -/
theorem c1_amended_concurrent_exchanges :
    ∀ (st : TokenState) (now : Int) (n : Nat) (ex : Nat → ExchangeOutcome),
    cacheValid st now = false →
    (runConcurrentGetToken st now n ex).2.2 = n ∧
    ∀ i, i < n →
      (runConcurrentGetToken st now n ex).1.get? i
        = some ((getDataverseToken st now (ex i)).1) := by
  intro st now n ex hc
  constructor
  · simp [runConcurrentGetToken, hc]
  · intro i hi
    simp only [runConcurrentGetToken, hc, if_neg Bool.false_ne_true, Bool.false_eq_true,
      if_false, getDataverseToken]
    rw [List.get?_map, List.get?_range hi]
    rfl

/-- Witness for the amended claim C1: an empty cache, two callers, two
exchanges, each caller served by its own exchange. -/
theorem c1_witness :
    (runConcurrentGetToken { dataverseToken := none, tokenExpiry := 0 } 0 2
        (fun i => ExchangeOutcome.ok (if i == 0 then "tokA" else "tokB") 3600)).2.2 = 2
    ∧ ∀ i, i < 2 →
      (runConcurrentGetToken { dataverseToken := none, tokenExpiry := 0 } 0 2
          (fun i => ExchangeOutcome.ok (if i == 0 then "tokA" else "tokB") 3600)).1.get? i
        = some ((getDataverseToken { dataverseToken := none, tokenExpiry := 0 } 0
            (ExchangeOutcome.ok (if i == 0 then "tokA" else "tokB") 3600)).1) :=
  c1_amended_concurrent_exchanges _ _ _ _ rfl

/-- Characters of one string appearing at the start of another, used to
model JavaScript substring search. -/
def startsWithChars : List Char → List Char → Bool
  | [], _ => true
  | _ :: _, [] => false
  | p :: ps, c :: cs => p == c && startsWithChars ps cs

/-- JavaScript String.includes over the character lists: the pattern occurs
at some position. -/
def hasSubstrChars (pat : List Char) : List Char → Bool
  | [] => pat.isEmpty
  | c :: cs => startsWithChars pat (c :: cs) || hasSubstrChars pat cs

/-- JavaScript s.includes(pat). -/
def strIncludes (s pat : String) : Bool := hasSubstrChars pat.data s.data

/-- JavaScript s.toLowerCase(), character by character. -/
def lowerStr (s : String) : String := String.mk (s.data.map Char.toLower)

/-- The red-flag test of run_legal_entity_kyc: the lowercased screening
text contains sanction, fraud, money laundering, or convicted. -/
def kycHasRedFlags (screening : String) : Bool :=
  strIncludes (lowerStr screening) "sanction" ||
  strIncludes (lowerStr screening) "fraud" ||
  strIncludes (lowerStr screening) "money laundering" ||
  strIncludes (lowerStr screening) "convicted"

/-- One GLEIF search match as run_legal_entity_kyc records it. -/
structure GleifMatch where
  lei : String
  legalName : Option String
  entityStatus : Option String
  jurisdiction : Option String
deriving Repr, DecidableEq

/-- Outcome of the GLEIF search fetch in run_legal_entity_kyc: an ok
response with its list of matches, a non-ok HTTP status, or a thrown
exception with its message. -/
inductive GleifSearchOutcome where
  | ok (found : List GleifMatch)
  | httpFail (status : Nat)
  | exn (message : String)
deriving Repr, DecidableEq

/-- The fields of a GLEIF LEI record read by run_legal_entity_kyc; each is
optional, mirroring the optional chaining of the source. -/
structure LeiRecord where
  legalName : Option String
  entityStatus : Option String
  registrationStatus : Option String
  nextRenewalDate : Option String
deriving Repr, DecidableEq

/-- Outcome of the LEI verification fetch: an ok response with the record,
HTTP 404, another non-ok HTTP status, or a thrown exception. -/
inductive LeiOutcome where
  | ok (record : LeiRecord)
  | notFound
  | httpFail (status : Nat)
  | exn (message : String)
deriving Repr, DecidableEq

/-- Outcome of the Perplexity screening fetch: an ok response with the
optional message content and the citations, a non-ok HTTP status, or a
thrown exception. -/
inductive MediaOutcome where
  | ok (content : Option String) (citations : List String)
  | httpFail (status : Nat)
  | exn (message : String)
deriving Repr, DecidableEq

/-- The recorded gleifSearch check of run_legal_entity_kyc. -/
inductive GleifSearchCheck where
  | completed (matchCount : Nat) (found : List GleifMatch)
  | err (message : String)
deriving Repr, DecidableEq

/-- The recorded leiVerification check of run_legal_entity_kyc. -/
inductive LeiCheck where
  | completedValid (record : LeiRecord)
  | completedInvalid (message : String)
  | err (message : String)
deriving Repr, DecidableEq

/-- The recorded adverseMedia check of run_legal_entity_kyc. -/
inductive MediaCheck where
  | completed (summary : String) (hasRedFlags : Bool) (sources : List String)
  | err (message : String)
  | skipped (reason : String)
deriving Repr, DecidableEq

/-- The status string stored in the gleifSearch check object. -/
def gleifStatus : GleifSearchCheck → String
  | GleifSearchCheck.completed _ _ => "completed"
  | GleifSearchCheck.err _ => "error"

/-- The status string stored in the leiVerification check object. -/
def leiStatus : LeiCheck → String
  | LeiCheck.completedValid _ => "completed"
  | LeiCheck.completedInvalid _ => "completed"
  | LeiCheck.err _ => "error"

/-- The status string stored in the adverseMedia check object. -/
def mediaStatus : MediaCheck → String
  | MediaCheck.completed _ _ _ => "completed"
  | MediaCheck.err _ => "error"
  | MediaCheck.skipped _ => "skipped"

/-- JavaScript string interpolation of a possibly undefined value. -/
def jsShowOpt : Option String → String
  | none => "undefined"
  | some s => s

/-- Step 1 of run_legal_entity_kyc, the GLEIF search: the recorded check
and the risk factors this step pushes. -/
def gleifStep : GleifSearchOutcome → GleifSearchCheck × List String
  | GleifSearchOutcome.ok found =>
      (GleifSearchCheck.completed found.length found,
       if found.length = 0 then ["Company not found in GLEIF registry"] else [])
  | GleifSearchOutcome.httpFail status =>
      (GleifSearchCheck.err ("HTTP " ++ toString status), [])
  | GleifSearchOutcome.exn message => (GleifSearchCheck.err message, [])

/-- Step 2 of run_legal_entity_kyc, the LEI verification: performed only
when a truthy leiCode was supplied, otherwise nothing is recorded. -/
def leiStep (leiCode : Option String) (out : LeiOutcome) : Option LeiCheck × List String :=
  if jsTruthyOpt leiCode then
    match out with
    | LeiOutcome.ok record =>
        (some (LeiCheck.completedValid record),
         if record.registrationStatus ≠ some "ISSUED" then
           ["LEI registration status: " ++ jsShowOpt record.registrationStatus]
         else [])
    | LeiOutcome.notFound =>
        (some (LeiCheck.completedInvalid "LEI not found"),
         ["Provided LEI not found in GLEIF database"])
    | LeiOutcome.httpFail status =>
        (some (LeiCheck.err ("HTTP " ++ toString status)), [])
    | LeiOutcome.exn message => (some (LeiCheck.err message), [])
  else (none, [])

/-- Step 3 of run_legal_entity_kyc, the adverse media screening: skipped
when the Perplexity API key is not configured. -/
def mediaStep (perplexityConfigured : Bool) (out : MediaOutcome) : MediaCheck × List String :=
  if perplexityConfigured then
    match out with
    | MediaOutcome.ok content citations =>
        (MediaCheck.completed (content.getD "") (kycHasRedFlags (content.getD "")) citations,
         if kycHasRedFlags (content.getD "") then ["Adverse media findings detected"] else [])
    | MediaOutcome.httpFail status =>
        (MediaCheck.err ("HTTP " ++ toString status), [])
    | MediaOutcome.exn message => (MediaCheck.err message, [])
  else (MediaCheck.skipped "Perplexity API key not configured", [])

/-- The overall risk thresholding at the end of run_legal_entity_kyc. -/
def overallRiskOf (riskFactors : List String) : String :=
  if riskFactors.length ≥ 3 then "HIGH"
  else if riskFactors.length ≥ 1 then "MEDIUM"
  else "LOW"

/-- Inputs of one run_legal_entity_kyc invocation: the tool arguments, the
configuration flag, and the outcomes of the three external calls. -/
structure KycInputs where
  companyName : String
  leiCode : Option String
  perplexityConfigured : Bool
  gleif : GleifSearchOutcome
  lei : LeiOutcome
  media : MediaOutcome

/-- The results object run_legal_entity_kyc returns (serialized to JSON by
the source): the recorded checks, the pushed risk factors in push order,
and the overall risk level. -/
structure KycResults where
  companyName : String
  gleifSearch : GleifSearchCheck
  leiVerification : Option LeiCheck
  adverseMedia : MediaCheck
  riskFactors : List String
  overallRisk : String
deriving Repr, DecidableEq

/-- The run_legal_entity_kyc tool handler: the three checks in source
order, the concatenated risk factors, and the thresholded overall risk. -/
def run_legal_entity_kyc (inp : KycInputs) : KycResults :=
  { companyName := inp.companyName
    gleifSearch := (gleifStep inp.gleif).1
    leiVerification := (leiStep inp.leiCode inp.lei).1
    adverseMedia := (mediaStep inp.perplexityConfigured inp.media).1
    riskFactors :=
      (gleifStep inp.gleif).2 ++ (leiStep inp.leiCode inp.lei).2
        ++ (mediaStep inp.perplexityConfigured inp.media).2
    overallRisk :=
      overallRiskOf
        ((gleifStep inp.gleif).2 ++ (leiStep inp.leiCode inp.lei).2
          ++ (mediaStep inp.perplexityConfigured inp.media).2) }

/-- The aggregation rule as the spec states it, over the number of distinct
risk factors: LOW at zero, MEDIUM at one or two, HIGH at three or more. -/
def specRiskLevel (distinctCount : Nat) : String :=
  if distinctCount = 0 then "LOW"
  else if distinctCount ≤ 2 then "MEDIUM"
  else "HIGH"

lemma append_data (a b : String) : (a ++ b).data = a.data ++ b.data := by
  cases a; cases b; rfl

lemma ne_of_head_char (a b : String) (c d : Char)
    (ha : a.data.head? = some c) (hb : b.data.head? = some d) (hcd : c ≠ d) :
    a ≠ b := by
  intro h
  rw [h] at ha
  rw [ha] at hb
  exact hcd (Option.some_injective _ hb)

lemma lei_factor_ne_company (s : String) :
    "LEI registration status: " ++ s ≠ "Company not found in GLEIF registry" := by
  refine ne_of_head_char _ _ 'L' 'C' ?_ rfl (by decide)
  rw [append_data]; rfl

lemma lei_factor_ne_media (s : String) :
    "LEI registration status: " ++ s ≠ "Adverse media findings detected" := by
  refine ne_of_head_char _ _ 'L' 'A' ?_ rfl (by decide)
  rw [append_data]; rfl

lemma gleifStep_factors (g : GleifSearchOutcome) :
    (gleifStep g).2 = [] ∨ (gleifStep g).2 = ["Company not found in GLEIF registry"] := by
  cases g with
  | ok found =>
    by_cases h : found.length = 0
    · right; simp [gleifStep, h]
    · left; simp [gleifStep, h]
  | httpFail status => left; rfl
  | exn message => left; rfl

lemma leiStep_factors (leiCode : Option String) (out : LeiOutcome) :
    (leiStep leiCode out).2 = []
    ∨ (leiStep leiCode out).2 = ["Provided LEI not found in GLEIF database"]
    ∨ ∃ s, (leiStep leiCode out).2 = ["LEI registration status: " ++ s] := by
  by_cases hc : jsTruthyOpt leiCode
  · cases out with
    | ok record =>
      by_cases h : record.registrationStatus = some "ISSUED"
      · left; simp [leiStep, hc, h]
      · right; right
        exact ⟨jsShowOpt record.registrationStatus, by simp [leiStep, hc, h]⟩
    | notFound => right; left; simp [leiStep, hc]
    | httpFail status => left; simp [leiStep, hc]
    | exn message => left; simp [leiStep, hc]
  · left; simp [leiStep, hc]

lemma mediaStep_factors (pc : Bool) (out : MediaOutcome) :
    (mediaStep pc out).2 = [] ∨ (mediaStep pc out).2 = ["Adverse media findings detected"] := by
  by_cases hc : pc
  · cases out with
    | ok content citations =>
      by_cases h : kycHasRedFlags (content.getD "")
      · right; simp [mediaStep, hc, h]
      · left; simp [mediaStep, hc, h]
    | httpFail status => left; simp [mediaStep, hc]
    | exn message => left; simp [mediaStep, hc]
  · left; simp [mediaStep, hc]

lemma riskFactors_nodup (inp : KycInputs) :
    (run_legal_entity_kyc inp).riskFactors.Nodup := by
  have hg := gleifStep_factors inp.gleif
  have hl := leiStep_factors inp.leiCode inp.lei
  have hm := mediaStep_factors inp.perplexityConfigured inp.media
  show ((gleifStep inp.gleif).2 ++ (leiStep inp.leiCode inp.lei).2
      ++ (mediaStep inp.perplexityConfigured inp.media).2).Nodup
  have hCM : ("Company not found in GLEIF registry" : String)
      ≠ "Adverse media findings detected" := by decide
  rcases hl with hl | hl | ⟨s, hl⟩
  · rcases hg with hg | hg <;> rcases hm with hm | hm <;> rw [hg, hl, hm] <;> decide
  · rcases hg with hg | hg <;> rcases hm with hm | hm <;> rw [hg, hl, hm] <;> decide
  · rcases hg with hg | hg
    · rcases hm with hm | hm
      · rw [hg, hl, hm]; simp
      · rw [hg, hl, hm]
        simp [List.nodup_cons]
        exact lei_factor_ne_media s
    · rcases hm with hm | hm
      · rw [hg, hl, hm]
        simp [List.nodup_cons]
        exact Ne.symm (lei_factor_ne_company s)
      · rw [hg, hl, hm]
        simp [List.nodup_cons]
        exact ⟨Ne.symm (lei_factor_ne_company s), lei_factor_ne_media s⟩

lemma overallRiskOf_eq_spec (l : List String) :
    overallRiskOf l = specRiskLevel l.length := by
  unfold overallRiskOf specRiskLevel
  split_ifs <;> first | rfl | omega

/-- Claim C3: the overall risk level of run_legal_entity_kyc is a pure
function of the number of distinct risk factors across all checks, LOW at
zero, MEDIUM at one or two, HIGH at three or more, with no weighting by
which check produced them; the pushed factors are always pairwise distinct,
so the raw count the source thresholds equals the distinct count. -/
theorem c3_risk_level_pure_count :
    ∀ inp : KycInputs,
    (run_legal_entity_kyc inp).riskFactors.Nodup
    ∧ (run_legal_entity_kyc inp).overallRisk
        = specRiskLevel (run_legal_entity_kyc inp).riskFactors.dedup.length := by
  intro inp
  refine ⟨riskFactors_nodup inp, ?_⟩
  rw [List.Nodup.dedup (riskFactors_nodup inp)]
  show overallRiskOf _ = _
  exact overallRiskOf_eq_spec _

lemma gleifStep_status (g : GleifSearchOutcome) :
    gleifStatus (gleifStep g).1 = "completed" ∨ gleifStatus (gleifStep g).1 = "error" := by
  cases g <;> simp [gleifStep, gleifStatus]

lemma mediaStep_status (pc : Bool) (m : MediaOutcome) :
    mediaStatus (mediaStep pc m).1 = "completed"
    ∨ mediaStatus (mediaStep pc m).1 = "error"
    ∨ mediaStatus (mediaStep pc m).1 = "skipped" := by
  by_cases hc : pc <;> cases m <;> simp [mediaStep, hc, mediaStatus]

lemma leiStep_some (lc : Option String) (l : LeiOutcome) (h : jsTruthyOpt lc = true) :
    ∃ c, (leiStep lc l).1 = some c
      ∧ (leiStatus c = "completed" ∨ leiStatus c = "error") := by
  cases l with
  | ok record =>
    exact ⟨LeiCheck.completedValid record, by simp [leiStep, h], Or.inl rfl⟩
  | notFound =>
    exact ⟨LeiCheck.completedInvalid "LEI not found", by simp [leiStep, h], Or.inl rfl⟩
  | httpFail status =>
    exact ⟨LeiCheck.err ("HTTP " ++ toString status), by simp [leiStep, h], Or.inr rfl⟩
  | exn message =>
    exact ⟨LeiCheck.err message, by simp [leiStep, h], Or.inr rfl⟩

lemma leiStep_none (lc : Option String) (l : LeiOutcome) (h : jsTruthyOpt lc = false) :
    (leiStep lc l).1 = none := by
  simp [leiStep, h]

lemma gleifStep_err_no_factor (g : GleifSearchOutcome)
    (h : gleifStatus (gleifStep g).1 = "error") : (gleifStep g).2 = [] := by
  cases g with
  | ok found => simp [gleifStep, gleifStatus] at h
  | httpFail status => rfl
  | exn message => rfl

lemma leiStep_err_no_factor (lc : Option String) (l : LeiOutcome) (c : LeiCheck)
    (h1 : (leiStep lc l).1 = some c) (h2 : leiStatus c = "error") :
    (leiStep lc l).2 = [] := by
  by_cases hc : jsTruthyOpt lc
  · cases l with
    | ok record =>
      simp [leiStep, hc] at h1
      rw [← h1] at h2
      simp [leiStatus] at h2
    | notFound =>
      simp [leiStep, hc] at h1
      rw [← h1] at h2
      simp [leiStatus] at h2
    | httpFail status => simp [leiStep, hc]
    | exn message => simp [leiStep, hc]
  · simp [leiStep, hc] at h1

lemma mediaStep_err_no_factor (pc : Bool) (m : MediaOutcome)
    (h : mediaStatus (mediaStep pc m).1 = "error") : (mediaStep pc m).2 = [] := by
  by_cases hc : pc
  · cases m with
    | ok content citations => simp [mediaStep, hc, mediaStatus] at h
    | httpFail status => simp [mediaStep, hc]
    | exn message => simp [mediaStep, hc]
  · simp [mediaStep, hc, mediaStatus] at h

lemma company_not_mem (lc : Option String) (l : LeiOutcome) (pc : Bool) (m : MediaOutcome) :
    "Company not found in GLEIF registry" ∉ (leiStep lc l).2 ++ (mediaStep pc m).2 := by
  rcases leiStep_factors lc l with hl | hl | ⟨s, hl⟩ <;>
    rcases mediaStep_factors pc m with hm | hm <;>
      rw [hl, hm] <;> simp <;>
        exact Ne.symm (lei_factor_ne_company s)

lemma pnf_not_mem (g : GleifSearchOutcome) (pc : Bool) (m : MediaOutcome) :
    "Provided LEI not found in GLEIF database" ∉ (gleifStep g).2 ++ (mediaStep pc m).2 := by
  rcases gleifStep_factors g with hg | hg <;>
    rcases mediaStep_factors pc m with hm | hm <;>
      rw [hg, hm] <;> decide

lemma leis_not_mem (g : GleifSearchOutcome) (pc : Bool) (m : MediaOutcome) (s : String) :
    ("LEI registration status: " ++ s) ∉ (gleifStep g).2 ++ (mediaStep pc m).2 := by
  rcases gleifStep_factors g with hg | hg <;>
    rcases mediaStep_factors pc m with hm | hm <;>
      rw [hg, hm] <;> simp <;>
        first
          | exact lei_factor_ne_company s
          | exact lei_factor_ne_media s
          | exact ⟨lei_factor_ne_company s, lei_factor_ne_media s⟩

lemma media_not_mem (g : GleifSearchOutcome) (lc : Option String) (l : LeiOutcome) :
    "Adverse media findings detected" ∉ (gleifStep g).2 ++ (leiStep lc l).2 := by
  rcases gleifStep_factors g with hg | hg <;>
    rcases leiStep_factors lc l with hl | hl | ⟨s, hl⟩ <;>
      rw [hg, hl] <;> simp <;>
        exact Ne.symm (lei_factor_ne_media s)

/-- Claim C6, counterexample: at an invocation that supplies no leiCode,
run_legal_entity_kyc records no leiVerification check at all, so it is
false that every invocation records each of the three checks with a status
of Completed, Skipped, or Errored. -/
theorem c6_counterexample :
    (run_legal_entity_kyc
        { companyName := "Acme Corp", leiCode := none, perplexityConfigured := false,
          gleif := GleifSearchOutcome.ok [], lei := LeiOutcome.notFound,
          media := MediaOutcome.exn "down" }).leiVerification = none := rfl

/-- Claim C6 as amended: the GLEIF search and adverse-media checks are
always recorded (completed or errored, media also skipped when the key is
not configured); the LEI check is recorded with such a status exactly when
a truthy leiCode is supplied, and is otherwise omitted with no recorded
result; the outcome of an earlier check never changes what the later
checks record; an errored check contributes no risk factor; and the risk
factors are pushed in the fixed order GLEIF search, LEI verification,
adverse media. -/
theorem c6_amended_checks :
    ∀ inp : KycInputs,
    (gleifStatus (run_legal_entity_kyc inp).gleifSearch = "completed"
       ∨ gleifStatus (run_legal_entity_kyc inp).gleifSearch = "error")
    ∧ (mediaStatus (run_legal_entity_kyc inp).adverseMedia = "completed"
       ∨ mediaStatus (run_legal_entity_kyc inp).adverseMedia = "error"
       ∨ mediaStatus (run_legal_entity_kyc inp).adverseMedia = "skipped")
    ∧ (jsTruthyOpt inp.leiCode = true →
        ∃ c, (run_legal_entity_kyc inp).leiVerification = some c
          ∧ (leiStatus c = "completed" ∨ leiStatus c = "error"))
    ∧ (jsTruthyOpt inp.leiCode = false →
        (run_legal_entity_kyc inp).leiVerification = none)
    ∧ (∀ g2 : GleifSearchOutcome,
        (run_legal_entity_kyc { inp with gleif := g2 }).leiVerification
          = (run_legal_entity_kyc inp).leiVerification
        ∧ (run_legal_entity_kyc { inp with gleif := g2 }).adverseMedia
          = (run_legal_entity_kyc inp).adverseMedia)
    ∧ (∀ l2 : LeiOutcome,
        (run_legal_entity_kyc { inp with lei := l2 }).adverseMedia
          = (run_legal_entity_kyc inp).adverseMedia)
    ∧ (gleifStatus (run_legal_entity_kyc inp).gleifSearch = "error" →
        "Company not found in GLEIF registry" ∉ (run_legal_entity_kyc inp).riskFactors)
    ∧ (∀ c, (run_legal_entity_kyc inp).leiVerification = some c →
        leiStatus c = "error" →
        "Provided LEI not found in GLEIF database" ∉ (run_legal_entity_kyc inp).riskFactors
        ∧ ∀ s, ("LEI registration status: " ++ s) ∉ (run_legal_entity_kyc inp).riskFactors)
    ∧ (mediaStatus (run_legal_entity_kyc inp).adverseMedia = "error" →
        "Adverse media findings detected" ∉ (run_legal_entity_kyc inp).riskFactors)
    ∧ (run_legal_entity_kyc inp).riskFactors
        = (gleifStep inp.gleif).2 ++ (leiStep inp.leiCode inp.lei).2
          ++ (mediaStep inp.perplexityConfigured inp.media).2 := by
  intro inp
  obtain ⟨cn, lc, pc, g, l, m⟩ := inp
  refine ⟨gleifStep_status g, mediaStep_status pc m,
    fun h => leiStep_some lc l h,
    fun h => leiStep_none lc l h,
    fun g2 => ⟨rfl, rfl⟩,
    fun l2 => rfl,
    ?_, ?_, ?_, rfl⟩
  · intro h
    show "Company not found in GLEIF registry"
      ∉ (gleifStep g).2 ++ (leiStep lc l).2 ++ (mediaStep pc m).2
    rw [gleifStep_err_no_factor g h]
    simpa using company_not_mem lc l pc m
  · intro c h1 h2
    have h3 : (leiStep lc l).2 = [] := leiStep_err_no_factor lc l c h1 h2
    constructor
    · show "Provided LEI not found in GLEIF database"
        ∉ (gleifStep g).2 ++ (leiStep lc l).2 ++ (mediaStep pc m).2
      rw [h3]
      simpa using pnf_not_mem g pc m
    · intro s
      show ("LEI registration status: " ++ s)
        ∉ (gleifStep g).2 ++ (leiStep lc l).2 ++ (mediaStep pc m).2
      rw [h3]
      simpa using leis_not_mem g pc m s
  · intro h
    show "Adverse media findings detected"
      ∉ (gleifStep g).2 ++ (leiStep lc l).2 ++ (mediaStep pc m).2
    rw [mediaStep_err_no_factor pc m h]
    simpa using media_not_mem g lc l

/-- A tool response envelope: the texts of its content array (every content
item this server produces has type text; the JSON pretty-printing of object
payloads is abstracted to a flat rendering of the same fields). -/
structure Envelope where
  content : List String
deriving Repr, DecidableEq

/-- Modelled from the spec: the tool dispatch boundary of the protocol SDK,
which server.js uses but does not contain. Every exception a handler raises
is caught at this boundary and converted into a normal response envelope
whose payload text describes the error; a handler that returns normally has
its envelope passed through. -/
def dispatchTool (handlerRun : Except String Envelope) : Envelope :=
  match handlerRun with
  | Except.ok env => env
  | Except.error msg => { content := ["Error: " ++ msg] }

/-- The getStatusLabel helper of server.js. -/
def getStatusLabel (status : Int) : String :=
  if status = 1 then "Pending"
  else if status = 2 then "Under Review"
  else if status = 3 then "Approved"
  else if status = 4 then "Rejected"
  else "Unknown"

/-- Falsiness of an optional string argument under JavaScript rules. -/
def jsFalsyStr : Option String → Bool
  | none => true
  | some s => s == ""

/-- Falsiness of an optional numeric argument under JavaScript rules:
undefined and zero are falsy. -/
def jsFalsyNum : Option Int → Bool
  | none => true
  | some n => n == 0

/-- The update_customer_status tool handler: its two validations, then the
single PATCH against the record store, whose outcome is a parameter.
Returns the value returned or thrown and the number of record-store calls
performed. -/
def update_customer_status (customerId : Option String) (status : Option Int)
    (patchOutcome : Except String Unit) : Except String Envelope × Nat :=
  if jsFalsyStr customerId || jsFalsyNum status then
    (Except.ok { content := ["customerId and status are required"] }, 0)
  else
    let st := status.getD 0
    if st < 1 ∨ st > 4 then
      (Except.ok { content :=
        ["status must be 1 (Pending), 2 (Under Review), 3 (Approved), or 4 (Rejected)"] }, 0)
    else
      match patchOutcome with
      | Except.ok _ =>
          (Except.ok { content :=
            ["Customer status updated to \"" ++ getStatusLabel st ++ "\" successfully."] }, 1)
      | Except.error msg => (Except.error msg, 1)

/-- One customer row as read by get_kyc_summary. -/
structure CustomerRec where
  cr_kyccustomerid : String
  cr_status : Int
deriving Repr, DecidableEq

/-- The get_kyc_summary tool handler: one record-store list call (outcome a
parameter, a thrown error propagating out of the handler uncaught), then
the by-status counts. -/
def get_kyc_summary (fetchOutcome : Except String (List CustomerRec)) :
    Except String Envelope × Nat :=
  match fetchOutcome with
  | Except.error msg => (Except.error msg, 1)
  | Except.ok customers =>
      (Except.ok { content :=
        ["totalCustomers=" ++ toString customers.length
          ++ " pending=" ++ toString (customers.filter (fun c => c.cr_status == 1)).length
          ++ " underReview=" ++ toString (customers.filter (fun c => c.cr_status == 2)).length
          ++ " approved=" ++ toString (customers.filter (fun c => c.cr_status == 3)).length
          ++ " rejected=" ++ toString (customers.filter (fun c => c.cr_status == 4)).length] },
       1)

/-- Claim C4: every exception a tool handler raises is caught at the
dispatch boundary and becomes a normal envelope whose payload text carries
the error message, never a protocol-level failure; in particular the
update_customer_status and get_kyc_summary handlers, which have no local
try-catch around their record-store calls, always come back through the
boundary as a well-formed envelope with a nonempty content array. -/
theorem c4_dispatcher_catches_handler_errors :
    ∀ (r : Except String Envelope) (msg : String) (env : Envelope)
      (customerId : Option String) (status : Option Int)
      (patchOutcome : Except String Unit)
      (fetchOutcome : Except String (List CustomerRec)),
    (r = Except.error msg → dispatchTool r = { content := ["Error: " ++ msg] })
    ∧ (r = Except.ok env → dispatchTool r = env)
    ∧ (dispatchTool (update_customer_status customerId status patchOutcome).1).content ≠ []
    ∧ (dispatchTool (get_kyc_summary fetchOutcome).1).content ≠ []
    ∧ dispatchTool (get_kyc_summary (Except.error msg)).1
        = { content := ["Error: " ++ msg] }
    ∧ dispatchTool (update_customer_status (some "11111111-2222-3333-4444-555555555555")
          (some 3) (Except.error msg)).1
        = { content := ["Error: " ++ msg] } := by
  intro r msg env customerId status patchOutcome fetchOutcome
  refine ⟨fun h => by rw [h]; rfl, fun h => by rw [h]; rfl, ?_, ?_, rfl, rfl⟩
  · by_cases h1 : jsFalsyStr customerId || jsFalsyNum status
    · simp [update_customer_status, h1, dispatchTool]
    · by_cases h2 : (status.getD 0) < 1 ∨ (status.getD 0) > 4
      · simp [update_customer_status, h1, h2, dispatchTool]
      · cases patchOutcome <;> simp [update_customer_status, h1, h2, dispatchTool]
  · cases fetchOutcome <;> simp [get_kyc_summary, dispatchTool]

/-- Claim C9: an update_customer_status invocation with a missing or empty
customerId, a missing or zero status, or a status outside one to four
returns an explanatory text envelope and performs zero record-store calls;
the single PATCH happens only after both validations pass. -/
theorem c9_update_status_validation :
    ∀ (customerId : Option String) (status : Option Int) (st : Int)
      (patchOutcome : Except String Unit),
    ((jsFalsyStr customerId = true ∨ jsFalsyNum status = true) →
       update_customer_status customerId status patchOutcome
         = (Except.ok { content := ["customerId and status are required"] }, 0))
    ∧ (jsFalsyStr customerId = false → status = some st → st ≠ 0 →
        (st < 1 ∨ st > 4) →
        update_customer_status customerId status patchOutcome
          = (Except.ok { content :=
              ["status must be 1 (Pending), 2 (Under Review), 3 (Approved), or 4 (Rejected)"] },
             0))
    ∧ (jsFalsyStr customerId = false → status = some st → 1 ≤ st → st ≤ 4 →
        (update_customer_status customerId status patchOutcome).2 = 1) := by
  intro customerId status st patchOutcome
  refine ⟨?_, ?_, ?_⟩
  · intro h
    have hb : (jsFalsyStr customerId || jsFalsyNum status) = true := by
      rcases h with h | h <;> simp [h]
    simp [update_customer_status, hb]
  · intro h1 h2 h3 h4
    have hb : (jsFalsyStr customerId || jsFalsyNum status) = false := by
      subst h2; simp [h1, jsFalsyNum, h3]
    subst h2
    simp [update_customer_status, hb, h4]
  · intro h1 h2 h3 h4
    have hst : st ≠ 0 := by omega
    have hb : (jsFalsyStr customerId || jsFalsyNum status) = false := by
      subst h2; simp [h1, jsFalsyNum, hst]
    have hr : ¬((status.getD 0) < 1 ∨ (status.getD 0) > 4) := by
      subst h2; simp; omega
    cases patchOutcome <;> simp [update_customer_status, hb, hr]

/-- Witness for claim C9: empty customerId, zero status, and out-of-range
status all validate with zero record-store calls; status three writes. -/
theorem c9_witness :
    update_customer_status (some "") (some 3) (Except.ok ())
      = (Except.ok { content := ["customerId and status are required"] }, 0)
    ∧ update_customer_status (some "cid") (some 7) (Except.ok ())
      = (Except.ok { content :=
          ["status must be 1 (Pending), 2 (Under Review), 3 (Approved), or 4 (Rejected)"] },
         0)
    ∧ (update_customer_status (some "cid") (some 3) (Except.ok ())).2 = 1 :=
  ⟨((c9_update_status_validation (some "") (some 3) 3 (Except.ok ())).1 (Or.inl rfl)),
   ((c9_update_status_validation (some "cid") (some 7) 7 (Except.ok ())).2.1 rfl rfl
      (by decide) (Or.inr (by decide))),
   ((c9_update_status_validation (some "cid") (some 3) 3 (Except.ok ())).2.2 rfl rfl
      (by decide) (by decide))⟩

/-- A POST /mcp request as the routing code reads it: the mcp-session-id
header and whether the body is an initialize request. -/
structure McpPostRequest where
  sessionId : Option String
  isInitialize : Bool
deriving Repr, DecidableEq

/-- What the POST /mcp route does with a request. -/
inductive McpPostResponse where
  | handled (sessionId : String)
  | initialized (newSessionId : String)
  | badRequest
deriving Repr, DecidableEq

/-- The POST /mcp routing of server.js over the streamableTransports
registry, modelled as the list of registered session ids. The transport
behavior on an accepted initialize request is modelled from the spec,
since it lives in the protocol SDK: sessionIdGenerator mints the one fresh
identifier (the fresh parameter), onsessioninitialized registers exactly
that identifier, and the identifier is returned to the caller in the
mcp-session-id response header. -/
def handleMcpPost (sessions : List String) (req : McpPostRequest) (fresh : String) :
    McpPostResponse × List String :=
  match req.sessionId with
  | some sid =>
    if sid ∈ sessions then (McpPostResponse.handled sid, sessions)
    else (McpPostResponse.badRequest, sessions)
  | none =>
    if req.isInitialize then (McpPostResponse.initialized fresh, fresh :: sessions)
    else (McpPostResponse.badRequest, sessions)

/-- Claim C5: a POST carrying a session id absent from the registry, or no
session id on a non-initialize body, gets the protocol-level bad-request
error and mints no session (the registry is unchanged); a POST with no
session id and an initialize body creates exactly one new session, whose
identifier goes back to the caller. -/
theorem c5_session_routing :
    ∀ (sessions : List String) (req : McpPostRequest) (fresh sid : String),
    (req.sessionId = some sid → sid ∉ sessions →
       handleMcpPost sessions req fresh = (McpPostResponse.badRequest, sessions))
    ∧ (req.sessionId = none → req.isInitialize = false →
       handleMcpPost sessions req fresh = (McpPostResponse.badRequest, sessions))
    ∧ (req.sessionId = none → req.isInitialize = true →
       handleMcpPost sessions req fresh
         = (McpPostResponse.initialized fresh, fresh :: sessions))
    ∧ (req.sessionId = some sid → sid ∈ sessions →
       handleMcpPost sessions req fresh = (McpPostResponse.handled sid, sessions)) := by
  intro sessions req fresh sid
  refine ⟨?_, ?_, ?_, ?_⟩
  · intro h hmem; simp [handleMcpPost, h, hmem]
  · intro h hinit; simp [handleMcpPost, h, hinit]
  · intro h hinit; simp [handleMcpPost, h, hinit]
  · intro h hmem; simp [handleMcpPost, h, hmem]

/-- The credential carriers of one incoming HTTP request: the x-api-key
header, the authorization header, and the api_key query parameter. -/
structure HttpRequest where
  xApiKey : Option String
  authorization : Option String
  queryApiKey : Option String
deriving Repr, DecidableEq

/-- JavaScript a || b over possibly absent strings: the left operand wins
when it is truthy. -/
def jsOrStr : Option String → Option String → Option String
  | some s, b => if s == "" then b else some s
  | none, b => b

/-- JavaScript s.replace(pat, repl) with an empty replacement: the first
occurrence of the pattern is removed. -/
def removeFirstOcc (pat : List Char) : List Char → List Char
  | [] => []
  | c :: cs =>
    if startsWithChars pat (c :: cs) then List.drop pat.length (c :: cs)
    else c :: removeFirstOcc pat cs

/-- JavaScript s.replace(pat, "") over strings. -/
def replaceFirst (s pat : String) : String := String.mk (removeFirstOcc pat.data s.data)

/-- The providedKey expression of validateApiKey: the x-api-key header, or
the authorization header with its first Bearer prefix removed, or the
api_key query parameter, under JavaScript || semantics. -/
def providedKeyOf (req : HttpRequest) : Option String :=
  jsOrStr req.xApiKey
    (jsOrStr (req.authorization.map (fun a => replaceFirst a "Bearer ")) req.queryApiKey)

/-- What the validateApiKey middleware does with a request. -/
inductive AuthDecision where
  | accepted
  | unauthorized
  | forbidden
deriving Repr, DecidableEq

/-- The validateApiKey middleware of server.js: pass-through when no API
key is configured (an unset or empty MCP_API_KEY is falsy); otherwise 401
when no key was provided, 403 when the provided key differs from the
configured one, and next() on an exact match. -/
def validateApiKey (apiKey : Option String) (req : HttpRequest) : AuthDecision :=
  if jsTruthyOpt apiKey = false then AuthDecision.accepted
  else
    match providedKeyOf req with
    | none => AuthDecision.unauthorized
    | some pk =>
      if pk == "" then AuthDecision.unauthorized
      else if some pk ≠ apiKey then AuthDecision.forbidden
      else AuthDecision.accepted

lemma startsWithChars_append (pat rest : List Char) :
    startsWithChars pat (pat ++ rest) = true := by
  induction pat with
  | nil => rfl
  | cons p ps ih => simp [startsWithChars, ih]

lemma removeFirstOcc_append (pat rest : List Char) (hp : pat ≠ []) :
    removeFirstOcc pat (pat ++ rest) = rest := by
  cases pat with
  | nil => exact absurd rfl hp
  | cons p ps =>
    have hs := startsWithChars_append (p :: ps) rest
    rw [show ((p :: ps) ++ rest) = p :: (ps ++ rest) from rfl]
    rw [removeFirstOcc]
    rw [show (p :: (ps ++ rest)) = ((p :: ps) ++ rest) from rfl]
    rw [if_pos hs]
    exact List.drop_left (p :: ps) rest

lemma mk_data (s : String) : String.mk s.data = s := by
  cases s; rfl

lemma replaceFirst_bearer (v : String) :
    replaceFirst ("Bearer " ++ v) "Bearer " = v := by
  rw [replaceFirst, append_data,
    removeFirstOcc_append _ _ (by decide), mk_data]

/-- Claim C7: with no configured secret every request is accepted; with a
configured secret, a request carrying no secret in any of the three
carriers is rejected 401, and a request carrying its secret in exactly one
carrier (x-api-key header, Bearer authorization header, or api_key query
parameter) is accepted exactly when the value equals the configured secret
and rejected 403 otherwise. -/
theorem c7_api_key_validation :
    ∀ (req : HttpRequest) (k v : String),
    (validateApiKey none req = AuthDecision.accepted)
    ∧ (validateApiKey (some "") req = AuthDecision.accepted)
    ∧ (k ≠ "" →
        validateApiKey (some k) { xApiKey := none, authorization := none, queryApiKey := none }
          = AuthDecision.unauthorized)
    ∧ (k ≠ "" → v ≠ "" →
        validateApiKey (some k) { xApiKey := some v, authorization := none, queryApiKey := none }
          = (if v = k then AuthDecision.accepted else AuthDecision.forbidden))
    ∧ (k ≠ "" → v ≠ "" →
        validateApiKey (some k)
            { xApiKey := none, authorization := some ("Bearer " ++ v), queryApiKey := none }
          = (if v = k then AuthDecision.accepted else AuthDecision.forbidden))
    ∧ (k ≠ "" → v ≠ "" →
        validateApiKey (some k) { xApiKey := none, authorization := none, queryApiKey := some v }
          = (if v = k then AuthDecision.accepted else AuthDecision.forbidden)) := by
  intro req k v
  refine ⟨rfl, by simp [validateApiKey, jsTruthyOpt], ?_, ?_, ?_, ?_⟩
  · intro hk
    simp [validateApiKey, jsTruthyOpt, hk, providedKeyOf, jsOrStr]
  · intro hk hv
    by_cases h : v = k
    · subst h
      simp [validateApiKey, jsTruthyOpt, providedKeyOf, jsOrStr, hv]
    · simp [validateApiKey, jsTruthyOpt, providedKeyOf, jsOrStr, hv, hk, h]
  · intro hk hv
    by_cases h : v = k
    · subst h
      simp [validateApiKey, jsTruthyOpt, providedKeyOf, jsOrStr, replaceFirst_bearer, hv]
    · simp [validateApiKey, jsTruthyOpt, providedKeyOf, jsOrStr, replaceFirst_bearer,
        hv, hk, h]
  · intro hk hv
    by_cases h : v = k
    · subst h
      simp [validateApiKey, jsTruthyOpt, providedKeyOf, jsOrStr, hv]
    · simp [validateApiKey, jsTruthyOpt, providedKeyOf, jsOrStr, hv, hk, h]

/-- Witness for claim C7 with the configured secret abc123 of the spec
examples: the exact secret in each carrier is accepted, a wrong secret is
rejected 403, and no secret is rejected 401. -/
theorem c7_witness :
    (validateApiKey none { xApiKey := none, authorization := none, queryApiKey := none }
       = AuthDecision.accepted)
    ∧ (validateApiKey (some "")
          { xApiKey := none, authorization := none, queryApiKey := none }
       = AuthDecision.accepted)
    ∧ (validateApiKey (some "abc123")
          { xApiKey := none, authorization := none, queryApiKey := none }
       = AuthDecision.unauthorized)
    ∧ (validateApiKey (some "abc123")
          { xApiKey := some "abc123", authorization := none, queryApiKey := none }
       = (if ("abc123" : String) = "abc123" then AuthDecision.accepted
          else AuthDecision.forbidden))
    ∧ (validateApiKey (some "abc123")
          { xApiKey := none, authorization := some ("Bearer " ++ "xyz"), queryApiKey := none }
       = (if ("xyz" : String) = "abc123" then AuthDecision.accepted
          else AuthDecision.forbidden))
    ∧ (validateApiKey (some "abc123")
          { xApiKey := none, authorization := none, queryApiKey := some "xyz" }
       = (if ("xyz" : String) = "abc123" then AuthDecision.accepted
          else AuthDecision.forbidden)) := by
  have h := c7_api_key_validation
    { xApiKey := none, authorization := none, queryApiKey := none } "abc123" "abc123"
  have h2 := c7_api_key_validation
    { xApiKey := none, authorization := none, queryApiKey := none } "abc123" "xyz"
  exact ⟨h.1, h.2.1, h.2.2.1 (by decide), h.2.2.2.1 (by decide) (by decide),
    h2.2.2.2.2.1 (by decide) (by decide), h2.2.2.2.2.2 (by decide) (by decide)⟩

/-- The configuration read from the environment by server.js, as far as
its GET routes consult it. -/
structure ServerConfig where
  apiKey : Option String
  dataverseClientId : Option String
  dataverseClientSecret : Option String
  docIntelligenceKey : Option String
deriving Repr, DecidableEq

/-- What a GET route of server.js responds. -/
inductive GetResponse where
  | healthOk (secured dataverseConfigured docIntelligenceConfigured : Bool) (timestamp : String)
  | infoOk
  | testDataverseOk
  | testDataverseFailed (message : String)
  | streamHandled (sessionId : String)
  | badRequest
  | unauthorized
  | forbidden
  | notFound
deriving Repr, DecidableEq

/-- The GET routes of server.js. The routes /health and / are registered
without the validateApiKey middleware; /test-dataverse and /mcp are
registered behind it. now is the current timestamp string, dvTest the
outcome of the Dataverse connectivity probe, mcpSessionId the
mcp-session-id request header. -/
def handleGet (cfg : ServerConfig) (sessions : List String) (now : String)
    (dvTest : Except String Unit) (path : String) (req : HttpRequest)
    (mcpSessionId : Option String) : GetResponse :=
  if path == "/health" then
    GetResponse.healthOk (jsTruthyOpt cfg.apiKey)
      (jsTruthyOpt cfg.dataverseClientId && jsTruthyOpt cfg.dataverseClientSecret)
      (jsTruthyOpt cfg.docIntelligenceKey) now
  else if path == "/test-dataverse" then
    match validateApiKey cfg.apiKey req with
    | AuthDecision.unauthorized => GetResponse.unauthorized
    | AuthDecision.forbidden => GetResponse.forbidden
    | AuthDecision.accepted =>
      match dvTest with
      | Except.ok _ => GetResponse.testDataverseOk
      | Except.error message => GetResponse.testDataverseFailed message
  else if path == "/mcp" then
    match validateApiKey cfg.apiKey req with
    | AuthDecision.unauthorized => GetResponse.unauthorized
    | AuthDecision.forbidden => GetResponse.forbidden
    | AuthDecision.accepted =>
      match mcpSessionId with
      | some sid =>
        if sid ∈ sessions then GetResponse.streamHandled sid else GetResponse.badRequest
      | none => GetResponse.badRequest
  else if path == "/" then GetResponse.infoOk
  else GetResponse.notFound

/-- Claim C10: GET /health and GET / bypass API-key validation entirely.
For every configuration, including one with a configured secret, and for
every request, the response is the fixed health or info payload — never
unauthorized or forbidden — so any two requests to these routes that
differ only in their credential carriers or session header receive the
same response. -/
theorem c10_health_and_info_bypass_auth :
    ∀ (cfg : ServerConfig) (sessions : List String) (now : String)
      (dvTest : Except String Unit) (req req2 : HttpRequest)
      (msid msid2 : Option String),
    handleGet cfg sessions now dvTest "/health" req msid
      = GetResponse.healthOk (jsTruthyOpt cfg.apiKey)
          (jsTruthyOpt cfg.dataverseClientId && jsTruthyOpt cfg.dataverseClientSecret)
          (jsTruthyOpt cfg.docIntelligenceKey) now
    ∧ handleGet cfg sessions now dvTest "/" req msid = GetResponse.infoOk
    ∧ handleGet cfg sessions now dvTest "/health" req msid
        = handleGet cfg sessions now dvTest "/health" req2 msid2
    ∧ handleGet cfg sessions now dvTest "/" req msid
        = handleGet cfg sessions now dvTest "/" req2 msid2 := by
  intro cfg sessions now dvTest req req2 msid msid2
  exact ⟨rfl, rfl, rfl, rfl⟩

end KycMcp
